import Mathlib

/-!
Verification of the ShareMatch chatbot backend (RAG pipeline).

This file gives a shallow embedding, in Lean, of the backend modules
`app.py`, `retriever.py`, `loader.py`, `chroma_cloud.py` and
`seed_to_supabase.py`, and proves (or refutes) the behavioural properties
stated in the specification.  Pure Python functions become Lean functions;
module-global mutable handles become explicit parameters; calls to external
services (vector store, embedding API, database) become `Except`-valued or
flag-controlled parameters so that both their success and failure paths are
represented.
-/

/- ### Chat orchestrator (`app.py`) -/

/-- A retrieved document as consumed by the chat handler: only the
`page_content` field is read (`app.py` line 111). -/
structure Doc where
  page_content : String
deriving DecidableEq, Repr

/-- Request body of `POST /chat` (`ChatRequest` in `app.py`):
`message: str`, `conversation_id: Optional[str] = None`. -/
structure ChatRequest where
  message : String
  conversation_id : Option String
deriving DecidableEq, Repr

/-- Response body of `POST /chat` (`ChatResponse` in `app.py`). -/
structure ChatResponse where
  message : String
  conversation_id : String
deriving DecidableEq, Repr

/-- Outcome of the `chat` endpoint: a 200 body, or an `HTTPException`
with a status code and a detail string. -/
inductive ChatResult where
  | ok (resp : ChatResponse)
  | httpError (status : Nat) (detail : String)
deriving DecidableEq, Repr

/-- Pipeline calls performed while handling one chat request; used to state
that the 503 path performs neither retrieval nor generation. -/
inductive ChatEvent where
  | retrieveCall (message : String)
  | generateCall (prompt : String)
deriving DecidableEq, Repr

/-- The prompt template assembled in `app.py` lines 114-123 around the
retrieved context and the verbatim user message. -/
def mkPrompt (context message : String) : String :=
  "You are ShareMatch AI, a helpful assistant for the ShareMatch platform. \nAnswer the question based on the context provided. Be friendly, professional, and concise.\nIf you don\x27t know the answer based on the context, say so politely and suggest contacting support.\n\nContext:\n" ++
    context ++ "\n\nQuestion: " ++ message ++ "\n\nAnswer:"

/-- Line 129 of `app.py`: the conversation id is the one of the request
`or` a fresh token; the Python `or` takes the right operand when the left
is `None` or the empty string (both falsy); `freshHex` stands for the drawn
`os.urandom(8).hex()` string and the fresh token prepends `conv_` to it. -/
def pickConvId (reqId : Option String) (freshHex : String) : String :=
  match reqId with
  | some cid => if cid = "" then "conv_" ++ freshHex else cid
  | none => "conv_" ++ freshHex

/-- The `try` block of the `chat` handler (`app.py` lines 108-138): retrieve,
join the page contents with blank lines, build the prompt, generate, pick the
conversation id; any exception raised by a step becomes a 500 response whose
detail prepends `"Error processing your message: "` to the cause.  The second
component records which pipeline calls were performed. -/
def chatReady (retrieve : String → Except String (List Doc))
    (generate : String → Except String String)
    (freshHex : String) (request : ChatRequest) :
    ChatResult × List ChatEvent :=
  match retrieve request.message with
  | .error e =>
      (.httpError 500 ("Error processing your message: " ++ e),
       [.retrieveCall request.message])
  | .ok docs =>
      match generate (mkPrompt (String.intercalate "\n\n"
          (docs.map Doc.page_content)) request.message) with
      | .error e =>
          (.httpError 500 ("Error processing your message: " ++ e),
           [.retrieveCall request.message,
            .generateCall (mkPrompt (String.intercalate "\n\n"
              (docs.map Doc.page_content)) request.message)])
      | .ok answer =>
          (.ok ⟨answer, pickConvId request.conversation_id freshHex⟩,
           [.retrieveCall request.message,
            .generateCall (mkPrompt (String.intercalate "\n\n"
              (docs.map Doc.page_content)) request.message)])

/-- Shallow embedding of the `chat` endpoint handler (`app.py` lines 98-138).
The module-global handles `retriever` and `llm` are `None` until
`startup_event` assigns them, so they are passed as `Option`-valued
parameters; a `some` value carries the call the handle performs, returning
`Except` to model a raised exception (`if not retriever or not llm` is the
guard on line 105). -/
def chat (retriever : Option (String → Except String (List Doc)))
    (llm : Option (String → Except String String))
    (freshHex : String) (request : ChatRequest) :
    ChatResult × List ChatEvent :=
  match retriever, llm with
  | some retrieve, some generate => chatReady retrieve generate freshHex request
  | _, _ => (.httpError 503 "Chatbot not initialized", [])

/-- A retrieval handle that succeeds with one fixed document. -/
def okRetrieve : String → Except String (List Doc) :=
  fun _ => .ok [⟨"ShareMatch is a trading platform for sports outcomes"⟩]

/-- A generation handle that succeeds with a fixed answer. -/
def okGenerate : String → Except String String :=
  fun _ => .ok "ShareMatch is a trading platform."

/-- A retrieval handle that raises. -/
def failRetrieve : String → Except String (List Doc) :=
  fun _ => .error "vector store unreachable"

/-- A generation handle that raises. -/
def failGenerate : String → Except String String :=
  fun _ => .error "model timed out"

/- ### Retriever and vector-store query (`retriever.py`, `chroma_cloud.py`) -/

/-- An entry of a vector store: id, embedding, and document text.
Embedding coordinates are modelled as integers (scaled fixed-point reals);
only their ordering by distance matters to the retrieval claims. -/
structure StoreEntry where
  id : String
  embedding : List Int
  document : String
deriving DecidableEq, Repr

/-- Modelled from the spec: the squared Euclidean distance ranking nearest
neighbours.  The similarity index itself lives in the external vector-store
service (`chromadb`, absent from the repository); the spec only fixes that
`query` returns "the k nearest neighbors with documents, metadata, and
distances". -/
def sqDist (q e : List Int) : Int :=
  ((q.zip e).map (fun p => (p.1 - p.2) * (p.1 - p.2))).sum

/-- Modelled from the spec: `query(e, k)` of a vector store — rank all
entries by ascending distance to the query embedding and keep the first
`k`: "query(e, k) returns results in non-decreasing distance order and
length ≤ min(k, count())". -/
def storeQuery (entries : List StoreEntry) (q : List Int) (k : Nat) :
    List StoreEntry :=
  (entries.mergeSort
    (fun a b => decide (sqDist q a.embedding ≤ sqDist q b.embedding))).take k

/-- The retriever object built by `get_retriever` (`retriever.py`): a
similarity-search wrapper over a vector store with a fixed `k`. -/
structure VSRetriever where
  entries : List StoreEntry
  search_type : String
  k : Nat
deriving DecidableEq, Repr

/-- Embedding of `get_retriever` (`retriever.py` lines 1-5):
`vectorstore.as_retriever(search_type="similarity", search_kwargs={"k": 4})`.
The store is represented by its list of entries. -/
def get_retriever (entries : List StoreEntry) : VSRetriever :=
  ⟨entries, "similarity", 4⟩

/-- Modelled from the spec (§4.3): invoking the retriever performs a
similarity search over the wrapped store with the configured
`k` of the retriever; the embedding of the query text is the parameter `q`. -/
def retrieverInvoke (r : VSRetriever) (q : List Int) : List StoreEntry :=
  storeQuery r.entries q r.k

/- ### Document ingestor (`loader.py`) -/

/-- Modelled from the spec: the chunking step of `load_and_split_documents`
(`loader.py` lines 6-21).  The splitter itself is the external
`RecursiveCharacterTextSplitter` and the constants `CHUNK_SIZE` /
`CHUNK_OVERLAP` live in `config.py`, which is absent from the repository;
§4.1 fixes a character-boundary strategy with "target chunk size and
inter-chunk overlap" configuration constants.  At character granularity
every text unit is splittable, so the model advances a window of `s`
characters by `s - o` positions.  `fuel` bounds the recursion depth (any
value ≥ the text length is enough); a degenerate configuration (`s ≤ o`)
or a text that already fits yields the single chunk `[text]`. -/
def splitGo (s o : Nat) : Nat → List Char → List (List Char)
  | 0, text => [text]
  | fuel + 1, text =>
      if text.length ≤ s ∨ s ≤ o then [text]
      else text.take s :: splitGo s o fuel (text.drop (s - o))

/-- Splitting one document: run the window with enough fuel. -/
def splitChars (s o : Nat) (text : List Char) : List (List Char) :=
  splitGo s o text.length text

/-- Embedding of `load_and_split_documents` (`loader.py`): the external PDF
reader yields one text per page (the `pages` input); each page is split and
the chunks are concatenated in read order. -/
def load_and_split_documents (s o : Nat) (pages : List (List Char)) :
    List (List Char) :=
  (pages.map (splitChars s o)).flatten


/- ### Cloud vector store (`chroma_cloud.py`) -/

/-- State of the remote Chroma Cloud tenant as visible through this module:
the named collection (`CHROMA_COLLECTION`) either exists with its entries
or is absent. -/
structure CloudState where
  collection : Option (List StoreEntry)
deriving DecidableEq, Repr

/-- Modelled from the spec: the SDK call `client.delete_collection(name)` of
the external `chromadb` package — it removes the collection, raising when
the collection does not exist ("a failure between delete and recreate
leaves the collection absent"). -/
def delete_collection (st : CloudState) : Except String CloudState :=
  match st.collection with
  | some _ => .ok ⟨none⟩
  | none => .error "collection does not exist"

/-- Modelled from the spec: `client.get_or_create_collection(name)` as used
by `get_or_create_collection` (`chroma_cloud.py` lines 40-48) — it returns
the existing collection or creates an empty one. -/
def get_or_create_collection (st : CloudState) : CloudState × List StoreEntry :=
  match st.collection with
  | some entries => (st, entries)
  | none => (⟨some []⟩, [])

/-- Embedding of `clear_collection` (`chroma_cloud.py` lines 93-110): try
to delete the collection, catching and merely logging a raised exception;
then get-or-create a fresh collection. -/
def clear_collection (st : CloudState) : CloudState :=
  let st1 := match delete_collection st with
    | .ok st2 => st2
    | .error _ => st
  (get_or_create_collection st1).1

/-- The body of `get_collection_count` before its `except` handler
(`chroma_cloud.py` lines 115-118): constructing the client or reaching the
collection may raise; `clientOk` selects which world the call runs in. -/
def get_collection_count_attempt (clientOk : Bool) (st : CloudState) :
    Except String Nat :=
  if clientOk then .ok (get_or_create_collection st).2.length
  else .error "could not construct client"

/-- Embedding of `get_collection_count` (`chroma_cloud.py` lines 113-121):
any exception raised by the attempted access is caught and turned into the
count 0. -/
def get_collection_count (clientOk : Bool) (st : CloudState) : Nat :=
  match get_collection_count_attempt clientOk st with
  | .ok n => n
  | .error _ => 0

/-- The decimal numeral string of a natural number, as the Python `str`
renders the index inside the f-string `f"doc_{i}"`. -/
def natToDec (n : Nat) : String :=
  if n = 0 then "0" else ⟨((Nat.digits 10 n).map Nat.digitChar).reverse⟩

/-- Line 63 of `chroma_cloud.py`: the auto-generated ids
`[f"doc_{i}" for i in range(len(documents))]`. -/
def gen_ids (n : Nat) : List String :=
  (List.range n).map (fun i => "doc_" ++ natToDec i)

/-- Embedding of `add_documents` (`chroma_cloud.py` lines 51-73): ids are
auto-generated when not provided, then `collection.add` stores the batch.
Modelled from the spec: the external `collection.add` appends the given
entries to the collection — neither the module nor the spec gives `add` a
deduplication step, the data model only demands that ids stay unique.
Metadata is not modelled; an entry is (id, embedding, document). -/
def add_documents (st : CloudState) (documents : List String)
    (embeddings : List (List Int)) (ids : Option (List String)) : CloudState :=
  let col := get_or_create_collection st
  let theIds := match ids with
    | some given => given
    | none => gen_ids documents.length
  ⟨some (col.2 ++ (theIds.zip (embeddings.zip documents)).map
    (fun t => ⟨t.1, t.2.1, t.2.2⟩))⟩

/-- The ids present in a cloud store state. -/
def storeIds (st : CloudState) : List String :=
  (st.collection.getD []).map StoreEntry.id

/-- Modelled from the spec: the `clear` capability of the local persistent store
(§4.2 gives every Vector Store variant the capability set
add/query/clear/count); the local backend is the external langchain
`Chroma` class, absent from the repository. -/
def localClear (_entries : List StoreEntry) : List StoreEntry := []

/-- Modelled from the spec: the `count` capability of the local persistent
store. -/
def localCount (entries : List StoreEntry) : Nat := entries.length

/- ### Seeding workflow (`seed_to_supabase.py`) -/

/-- A chunk fed to the seeding loop: its text and the source page recorded
in its metadata. -/
structure SeedChunk where
  content : String
  page : Nat
deriving DecidableEq, Repr

/-- A row of the external relational table `chatbot_embeddings` as written
by `insert_to_supabase`: content plus the metadata fields
`{source, page, chunk_index}` (the embedding vector itself is opaque to the
seeding claims). -/
structure SupaRow where
  content : String
  source : String
  page : Nat
  chunk_index : Nat
deriving DecidableEq, Repr

/-- A row of the relational table as seen by the delete call of
`clear_existing_embeddings`: only the auto-assigned serial id matters. -/
structure DbRow where
  id : Nat
  content : String
deriving DecidableEq, Repr

/-- Embedding of `clear_existing_embeddings` (`seed_to_supabase.py` lines
87-101): HTTP `DELETE ...chatbot_embeddings?id=gt.0` removes every row
whose auto id is positive; a non-2xx response only prints a warning and
leaves the table unchanged. -/
def clear_existing_embeddings (deleteOk : Bool) (rows : List DbRow) :
    List DbRow :=
  if deleteOk then rows.filter (fun r => !(decide (0 < r.id))) else rows

/-- Observable calls of one seeding run, in order: the embedding API call
for chunk `i`, the insert call for chunk `i`, the rate-limiting
`time.sleep(0.5)` (in milliseconds), and the printed error of a caught
per-chunk exception. -/
inductive SeedEvent where
  | embedCall (i : Nat)
  | insertCall (i : Nat)
  | sleepMs (ms : Nat)
  | errorLog (i : Nat)
deriving DecidableEq, Repr

/-- One iteration of the `for i, chunk in enumerate(chunks)` loop of `main`
(`seed_to_supabase.py` lines 121-147): embed, insert, bump the success
count, sleep — any exception jumps to the `except` clause, which logs and
continues.  `embedOk i` / `insertOk i` say whether the embedding call and
the insert call of chunk `i` succeed.  Result: events, success increment, inserted
rows. -/
def processChunk (embedOk insertOk : Nat → Bool) (i : Nat) (c : SeedChunk) :
    List SeedEvent × Nat × List SupaRow :=
  if embedOk i then
    if insertOk i then
      ([.embedCall i, .insertCall i, .sleepMs 500], 1,
       [⟨c.content, "faq.pdf", c.page, i⟩])
    else
      ([.embedCall i, .insertCall i, .errorLog i], 0, [])
  else
    ([.embedCall i, .errorLog i], 0, [])

/-- The seeding loop of `main` over the chunks, starting at index `i`:
concatenated events, total success count, all inserted rows. -/
def seedLoop (embedOk insertOk : Nat → Bool) :
    Nat → List SeedChunk → List SeedEvent × Nat × List SupaRow
  | _, [] => ([], 0, [])
  | i, c :: cs =>
      let r := processChunk embedOk insertOk i c
      let rest := seedLoop embedOk insertOk (i + 1) cs
      (r.1 ++ rest.1, r.2.1 + rest.2.1, r.2.2 ++ rest.2.2)

/-- The final report printed by `main` (line 149):
`success_count/len(chunks)`. -/
def seedReport (embedOk insertOk : Nat → Bool) (chunks : List SeedChunk) :
    Nat × Nat :=
  ((seedLoop embedOk insertOk 0 chunks).2.1, chunks.length)

/-- Scans an event trace checking that a sleep separates every two
consecutive embedding calls: `sawSleep` records whether a sleep has
occurred since the previous embedding call (initially `true`, as the first
embedding call needs no predecessor delay). -/
def delayCheck : List SeedEvent → Bool → Bool
  | [], _ => true
  | .embedCall _ :: rest, sawSleep => sawSleep && delayCheck rest false
  | .sleepMs _ :: rest, _ => delayCheck rest true
  | .insertCall _ :: rest, sawSleep => delayCheck rest sawSleep
  | .errorLog _ :: rest, sawSleep => delayCheck rest sawSleep

/-- Ten identical chunks, for the 10-chunk seeding scenario. -/
def demoChunks : List SeedChunk := List.replicate 10 ⟨"chunk", 0⟩

/- ### Theorems -/

/-- C1: a chat request arriving before the handles exist (either global
still `None`) fails with status 503 and performs no retrieval or generation
call; once both handles are constructed, the handler never returns 503. -/
theorem chat_503_before_ready
    (retriever : Option (String → Except String (List Doc)))
    (llm : Option (String → Except String String))
    (freshHex : String) (request : ChatRequest) :
    ((retriever = none ∨ llm = none) →
      chat retriever llm freshHex request =
        (.httpError 503 "Chatbot not initialized", [])) ∧
    (retriever ≠ none → llm ≠ none →
      ∀ d, (chat retriever llm freshHex request).1 ≠ .httpError 503 d) := by
  constructor
  · intro h
    rcases retriever with _ | retrieve
    · rfl
    rcases llm with _ | generate
    · rfl
    rcases h with h | h <;> exact absurd h (by simp)
  · intro hr hl d
    rcases retriever with _ | retrieve
    · exact absurd rfl hr
    rcases llm with _ | generate
    · exact absurd rfl hl
    show (chatReady retrieve generate freshHex request).1 ≠ _
    unfold chatReady
    rcases h1 : retrieve request.message with e | docs <;> simp only [h1]
    · simp
    · rcases h2 : generate (mkPrompt (String.intercalate "\n\n"
        (docs.map Doc.page_content)) request.message) with e | answer <;>
        simp only [h2] <;> simp

/-- Witness for C1 at concrete inputs: with both handles `None` the request
fails 503 with no pipeline call; with both constructed it does not. -/
theorem chat_503_before_ready_witness :
    (chat none none "0011aabb" ⟨"hi", none⟩ =
      (.httpError 503 "Chatbot not initialized", [])) ∧
    (chat (some okRetrieve) (some okGenerate) "0011aabb" ⟨"hi", none⟩).1 ≠
      .httpError 503 "Chatbot not initialized" :=
  ⟨(chat_503_before_ready none none "0011aabb" ⟨"hi", none⟩).1 (Or.inl rfl),
   (chat_503_before_ready (some okRetrieve) (some okGenerate) "0011aabb"
      ⟨"hi", none⟩).2 (by simp) (by simp) _⟩

/-- C2: with both handles constructed, a failure raised by the retrieval
call or by the generation call is caught and surfaced as status 500 whose
detail is exactly `"Error processing your message: "` followed by the cause
message; when neither fails the handler returns the generated answer with
status 200. -/
theorem chat_error_isolation
    (retrieve : String → Except String (List Doc))
    (generate : String → Except String String)
    (freshHex : String) (request : ChatRequest) :
    (∀ e, retrieve request.message = .error e →
      chat (some retrieve) (some generate) freshHex request =
        (.httpError 500 ("Error processing your message: " ++ e),
         [.retrieveCall request.message])) ∧
    (∀ docs e, retrieve request.message = .ok docs →
      generate (mkPrompt (String.intercalate "\n\n"
          (docs.map Doc.page_content)) request.message) = .error e →
      (chat (some retrieve) (some generate) freshHex request).1 =
        .httpError 500 ("Error processing your message: " ++ e)) ∧
    (∀ docs answer, retrieve request.message = .ok docs →
      generate (mkPrompt (String.intercalate "\n\n"
          (docs.map Doc.page_content)) request.message) = .ok answer →
      ∃ cid, (chat (some retrieve) (some generate) freshHex request).1 =
        .ok ⟨answer, cid⟩) := by
  refine ⟨fun e he => ?_, fun docs e hdocs he => ?_, fun docs answer hdocs ha => ?_⟩
  · show chatReady retrieve generate freshHex request = _
    unfold chatReady
    simp only [he]
  · show (chatReady retrieve generate freshHex request).1 = _
    unfold chatReady
    simp only [hdocs, he]
  · show ∃ cid, (chatReady retrieve generate freshHex request).1 = _
    unfold chatReady
    simp only [hdocs, ha]
    exact ⟨_, rfl⟩

/-- Witness for C2 at concrete inputs: a failing retrieval handle yields
the 500 detail string; succeeding handles yield a 200 answer. -/
theorem chat_error_isolation_witness :
    chat (some failRetrieve) (some okGenerate) "0011aabb" ⟨"hi", none⟩ =
      (.httpError 500 "Error processing your message: vector store unreachable",
       [.retrieveCall "hi"]) ∧
    (∃ cid, (chat (some okRetrieve) (some okGenerate) "0011aabb" ⟨"hi", none⟩).1 =
      .ok ⟨"ShareMatch is a trading platform.", cid⟩) :=
  ⟨(chat_error_isolation failRetrieve okGenerate "0011aabb" ⟨"hi", none⟩).1
      "vector store unreachable" rfl,
   (chat_error_isolation okRetrieve okGenerate "0011aabb" ⟨"hi", none⟩).2.2
      [⟨"ShareMatch is a trading platform for sports outcomes"⟩]
      "ShareMatch is a trading platform." rfl rfl⟩

/-- C5 counterexample: a successful request whose body contains the
conversation id `""` (present, a string) is answered with a freshly
generated id, not the echoed one: the Python `or` treats the empty string as
falsy, so the claim "contained implies echoed unchanged" fails. -/
theorem conv_id_empty_string_counterexample :
    (chat (some okRetrieve) (some okGenerate) "deadbeef" ⟨"hi", some ""⟩).1 =
      .ok ⟨"ShareMatch is a trading platform.", "conv_deadbeef"⟩ ∧
    "conv_deadbeef" ≠ "" := by
  exact ⟨rfl, by decide⟩

/-- C5 amended: for every successful chat request whose conversation id is
present and non-empty the response echoes it unchanged; when it is absent
or the empty string the response carries the freshly generated token
`"conv_" ++ hex`.  (No server-side state exists to be keyed by it: the
handler is a pure function of the request and the drawn randomness.) -/
theorem conv_id_echo_amended
    (retrieve : String → Except String (List Doc))
    (generate : String → Except String String)
    (freshHex : String) (request : ChatRequest) (resp : ChatResponse)
    (hok : (chat (some retrieve) (some generate) freshHex request).1 = .ok resp) :
    (∀ cid, request.conversation_id = some cid → cid ≠ "" →
      resp.conversation_id = cid) ∧
    ((request.conversation_id = none ∨ request.conversation_id = some "") →
      resp.conversation_id = "conv_" ++ freshHex) := by
  have hok2 : (chatReady retrieve generate freshHex request).1 = .ok resp := hok
  unfold chatReady at hok2
  rcases hr : retrieve request.message with e | docs <;> simp only [hr] at hok2
  · simp at hok2
  · rcases hg : generate (mkPrompt (String.intercalate "\n\n"
        (docs.map Doc.page_content)) request.message) with e | answer <;>
      simp only [hg] at hok2
    · simp at hok2
    · have hresp : resp = ⟨answer, pickConvId request.conversation_id freshHex⟩ := by
        simpa using hok2.symm
      subst hresp
      constructor
      · intro cid hcid hne
        simp [pickConvId, hcid, hne]
      · rintro (h | h) <;> simp [pickConvId, h]

/-- Witness for the amended statement of C5: a non-empty id `"abc"` is echoed,
and a request without one gets `"conv_deadbeef"`. -/
theorem conv_id_echo_amended_witness :
    (chat (some okRetrieve) (some okGenerate) "deadbeef" ⟨"hi", some "abc"⟩).1 =
      .ok ⟨"ShareMatch is a trading platform.", "abc"⟩ ∧
    (chat (some okRetrieve) (some okGenerate) "deadbeef" ⟨"hi", none⟩).1 =
      .ok ⟨"ShareMatch is a trading platform.", "conv_deadbeef"⟩ := by
  have h1 := conv_id_echo_amended okRetrieve okGenerate "deadbeef"
    ⟨"hi", some "abc"⟩ ⟨"ShareMatch is a trading platform.", "abc"⟩ rfl
  have h2 := conv_id_echo_amended okRetrieve okGenerate "deadbeef"
    ⟨"hi", none⟩ ⟨"ShareMatch is a trading platform.", "conv_deadbeef"⟩ rfl
  exact ⟨rfl, rfl⟩

/-- C3: the retriever policy is fixed at k = 4 — `get_retriever` takes no
per-request parameter and always builds `search_kwargs k = 4` — and for
every store state the query returns at most `min 4 (count)` results,
ordered by non-decreasing distance to the query embedding. -/
theorem retriever_fixed_topk (entries : List StoreEntry) (q : List Int) :
    (get_retriever entries).k = 4 ∧
    retrieverInvoke (get_retriever entries) q = storeQuery entries q 4 ∧
    (retrieverInvoke (get_retriever entries) q).length ≤
      min 4 entries.length ∧
    (retrieverInvoke (get_retriever entries) q).Pairwise
      (fun a b => sqDist q a.embedding ≤ sqDist q b.embedding) := by
  refine ⟨rfl, rfl, ?_, ?_⟩
  · simp [retrieverInvoke, get_retriever, storeQuery]
  · have hsorted := @List.sorted_mergeSort StoreEntry
      (fun a b : StoreEntry =>
        decide (sqDist q a.embedding ≤ sqDist q b.embedding))
      (fun a b c hab hbc => by
        simp only [decide_eq_true_eq] at *; exact le_trans hab hbc)
      (fun a b => by
        simp only [Bool.or_eq_true, decide_eq_true_eq]; exact le_total _ _)
      entries
    have htake := hsorted.sublist (List.take_sublist 4 _)
    exact htake.imp (fun h => by simpa using h)

/-- Every chunk produced by the splitter has length at most `s` (helper for
the chunk-size half of the splitting claim). -/
theorem splitGo_chunk_le (s o : Nat) (ho : o < s) :
    ∀ (fuel : Nat) (text : List Char), text.length ≤ fuel →
      ∀ c ∈ splitGo s o fuel text, c.length ≤ s := by
  intro fuel
  induction fuel with
  | zero =>
    intro text hlen c hc
    simp only [splitGo, List.mem_singleton] at hc
    subst hc
    omega
  | succ fuel ih =>
    intro text hlen c hc
    simp only [splitGo] at hc
    by_cases hcond : text.length ≤ s ∨ s ≤ o
    · rw [if_pos hcond] at hc
      simp only [List.mem_singleton] at hc
      subst hc
      omega
    · rw [if_neg hcond] at hc
      push_neg at hcond
      rcases List.mem_cons.mp hc with hc | hc
      · simp [hc]
      · exact ih (text.drop (s - o)) (by simp; omega) c hc

/-- With a well-formed configuration the output of the splitter always starts
with `text.take s` (helper). -/
theorem splitGo_head (s o : Nat) (ho : o < s) :
    ∀ (fuel : Nat) (text : List Char), text.length ≤ fuel →
      ∃ tl, splitGo s o fuel text = text.take s :: tl := by
  intro fuel text hlen
  cases fuel with
  | zero =>
    refine ⟨[], ?_⟩
    have : text = [] := List.length_eq_zero.mp (by omega)
    subst this
    simp [splitGo]
  | succ fuel =>
    simp only [splitGo]
    by_cases hcond : text.length ≤ s ∨ s ≤ o
    · rw [if_pos hcond]
      have hle : text.length ≤ s := by omega
      exact ⟨[], by rw [List.take_of_length_le hle]⟩
    · rw [if_neg hcond]
      exact ⟨_, rfl⟩

/-- Consecutive chunks overlap in exactly `o` characters: the last `o`
characters of a chunk are the first `o` characters of the next chunk
(helper for the overlap half of the splitting claim). -/
theorem splitGo_overlap (s o : Nat) (ho : o < s) :
    ∀ (fuel : Nat) (text : List Char) (i : Nat) (a b : List Char),
      text.length ≤ fuel →
      (splitGo s o fuel text)[i]? = some a →
      (splitGo s o fuel text)[i + 1]? = some b →
      (a.drop (s - o)).length = o ∧ a.drop (s - o) = b.take o := by
  intro fuel
  induction fuel with
  | zero =>
    intro text i a b hlen ha hb
    simp only [splitGo] at hb
    rcases i with _ | j <;> simp at hb
  | succ fuel ih =>
    intro text i a b hlen ha hb
    simp only [splitGo] at ha hb
    by_cases hcond : text.length ≤ s ∨ s ≤ o
    · rw [if_pos hcond] at hb
      rcases i with _ | j <;> simp at hb
    · rw [if_neg hcond] at ha hb
      push_neg at hcond
      obtain ⟨hgt, _⟩ := hcond
      have hlen2 : (text.drop (s - o)).length ≤ fuel := by simp; omega
      rcases i with _ | j
      · simp only [List.getElem?_cons_zero, Option.some.injEq] at ha
        subst ha
        simp only [List.getElem?_cons_succ] at hb
        obtain ⟨tl, htl⟩ := splitGo_head s o ho fuel (text.drop (s - o)) hlen2
        rw [htl, List.getElem?_cons_zero, Option.some.injEq] at hb
        subst hb
        constructor
        · rw [List.drop_take]
          simp
          omega
        · rw [List.drop_take, List.take_take]
          congr 1
          omega
      · simp only [List.getElem?_cons_succ] at ha hb
        exact ih (text.drop (s - o)) j a b hlen2 ha hb

/-- C4: splitting a document with chunk size `s` and overlap `o` (with the
well-formedness condition `o < s` that the external splitter asserts on
construction) yields chunks of length at most `s`, and every pair of
consecutive chunks shares exactly `o` characters of context at their
boundary: the trailing `o` characters of a chunk are the leading `o`
characters of its successor.  At character granularity no atomic unit can
force a longer chunk, so the size bound holds without exception. -/
theorem chunk_size_and_overlap (s o : Nat) (ho : o < s) (text : List Char) :
    (∀ c ∈ splitChars s o text, c.length ≤ s) ∧
    (∀ i a b, (splitChars s o text)[i]? = some a →
      (splitChars s o text)[i + 1]? = some b →
      (a.drop (s - o)).length = o ∧ a.drop (s - o) = b.take o) :=
  ⟨splitGo_chunk_le s o ho text.length text le_rfl,
   fun i a b ha hb => splitGo_overlap s o ho text.length text i a b le_rfl ha hb⟩

/-- Witness for C4 at a concrete input: splitting a ten-character text with
`s = 5`, `o = 2` gives windows of five characters stepping by three, and
the chunk at index 0 shares its last two characters with the chunk at
index 1. -/
theorem chunk_size_and_overlap_witness :
    splitChars 5 2 ['a', 'b', 'c', 'd', 'e', 'f', 'g', 'h', 'i', 'j'] =
      [['a', 'b', 'c', 'd', 'e'], ['d', 'e', 'f', 'g', 'h'],
       ['g', 'h', 'i', 'j']] ∧
    (['a', 'b', 'c', 'd', 'e'].drop (5 - 2)).length = 2 ∧
    ['a', 'b', 'c', 'd', 'e'].drop (5 - 2) =
      ['d', 'e', 'f', 'g', 'h'].take 2 :=
  ⟨by decide,
   (chunk_size_and_overlap 5 2 (by decide)
      ['a', 'b', 'c', 'd', 'e', 'f', 'g', 'h', 'i', 'j']).2 0
      ['a', 'b', 'c', 'd', 'e'] ['d', 'e', 'f', 'g', 'h']
      (by decide) (by decide)⟩

/-- C6: `clear()` immediately followed by `count()` yields 0 on every
backend variant: for the cloud store, from every prior state — including a
delete step that raises because the collection is absent, which is caught
and tolerated — `clear_collection` leaves a fresh empty collection and
`get_collection_count` then reports 0; for the relational store, the delete
of all positively-numbered rows empties the table (auto ids are positive);
the local variant (external langchain `Chroma`, modelled from the spec) is
trivially empty after clear. -/
theorem clear_then_count_zero (st : CloudState) (rows : List DbRow)
    (hIds : ∀ r ∈ rows, 0 < r.id) (localEntries : List StoreEntry) :
    clear_collection st = ⟨some []⟩ ∧
    get_collection_count true (clear_collection st) = 0 ∧
    clear_existing_embeddings true rows = [] ∧
    localCount (localClear localEntries) = 0 := by
  have hclear : clear_collection st = ⟨some []⟩ := by
    unfold clear_collection delete_collection get_or_create_collection
    rcases st with ⟨_ | entries⟩ <;> rfl
  refine ⟨hclear, by rw [hclear]; rfl, ?_, rfl⟩
  unfold clear_existing_embeddings
  rw [if_pos rfl]
  rw [List.filter_eq_nil_iff]
  intro r hr
  have h := hIds r hr
  simp [h]

/-- Witness for C6 at concrete inputs, exercising the tolerated failure:
the collection is absent, so the delete raises, yet clear-then-count is
still 0 — and a two-row table is emptied. -/
theorem clear_then_count_zero_witness :
    clear_collection ⟨none⟩ = ⟨some []⟩ ∧
    get_collection_count true (clear_collection ⟨none⟩) = 0 ∧
    clear_existing_embeddings true [⟨1, "a"⟩, ⟨2, "b"⟩] = [] ∧
    localCount (localClear [⟨"doc_0", [1], "a"⟩]) = 0 :=
  clear_then_count_zero ⟨none⟩ [⟨1, "a"⟩, ⟨2, "b"⟩] (by decide)
    [⟨"doc_0", [1], "a"⟩]

/-- C10: `get_collection_count` never raises — it is a total function whose
`except` handler turns every failure of the attempted client construction
or collection access into the count 0, so a connection failure is
indistinguishable at the public interface from an empty collection. -/
theorem count_failure_is_zero (clientOk : Bool) (st : CloudState) :
    (∀ e, get_collection_count_attempt clientOk st = .error e →
      get_collection_count clientOk st = 0) ∧
    get_collection_count false st = get_collection_count true ⟨some []⟩ := by
  constructor
  · intro e he
    unfold get_collection_count
    rw [he]
  · rfl

/-- Witness for C10 at a concrete input: with a non-empty collection but a
failing client construction, the count is 0. -/
theorem count_failure_is_zero_witness :
    get_collection_count false ⟨some [⟨"doc_0", [1], "a"⟩]⟩ = 0 :=
  (count_failure_is_zero false ⟨some [⟨"doc_0", [1], "a"⟩]⟩).1
    "could not construct client" rfl

/-- The map `Nat.digitChar` is injective on decimal digits (helper). -/
theorem digitChar_inj_lt10 {a b : Nat} (ha : a < 10) (hb : b < 10)
    (h : Nat.digitChar a = Nat.digitChar b) : a = b := by
  interval_cases a <;> interval_cases b <;>
    first
    | rfl
    | exact absurd h (by decide)

/-- Mapping `Nat.digitChar` over digit lists is injective (helper). -/
theorem map_digitChar_inj :
    ∀ {l1 l2 : List Nat}, (∀ d ∈ l1, d < 10) → (∀ d ∈ l2, d < 10) →
      l1.map Nat.digitChar = l2.map Nat.digitChar → l1 = l2 := by
  intro l1
  induction l1 with
  | nil =>
    intro l2 _ _ h
    cases l2 with
    | nil => rfl
    | cons b t2 => exact absurd h (by simp)
  | cons a t ih =>
    intro l2 h1 h2 h
    cases l2 with
    | nil => exact absurd h (by simp)
    | cons b t2 =>
      simp only [List.map_cons, List.cons.injEq] at h
      have hab := digitChar_inj_lt10 (h1 a (by simp)) (h2 b (by simp)) h.1
      subst hab
      have ht := ih (fun d hd => h1 d (List.mem_cons_of_mem _ hd))
        (fun d hd => h2 d (List.mem_cons_of_mem _ hd)) h.2
      rw [ht]

/-- The decimal rendering `natToDec` is injective (helper). -/
theorem natToDec_inj {n m : Nat} (h : natToDec n = natToDec m) : n = m := by
  unfold natToDec at h
  by_cases hn : n = 0 <;> by_cases hm : m = 0
  · omega
  · exfalso
    rw [if_pos hn, if_neg hm] at h
    have hd : ['0'] = ((Nat.digits 10 m).map Nat.digitChar).reverse :=
      congrArg String.data h
    have hrev : [(0 : Nat)].map Nat.digitChar =
        (Nat.digits 10 m).map Nat.digitChar := by
      have := congrArg List.reverse hd
      simpa using this
    have hzero : [0] = Nat.digits 10 m :=
      map_digitChar_inj (by decide)
        (fun d hd => Nat.digits_lt_base (by norm_num) hd) hrev
    have hofd := Nat.ofDigits_digits 10 m
    rw [← hzero] at hofd
    simp [Nat.ofDigits] at hofd
    omega
  · exfalso
    rw [if_neg hn, if_pos hm] at h
    have hd : ((Nat.digits 10 n).map Nat.digitChar).reverse = ['0'] :=
      congrArg String.data h
    have hrev : [(0 : Nat)].map Nat.digitChar =
        (Nat.digits 10 n).map Nat.digitChar := by
      have := congrArg List.reverse hd
      simpa using this.symm
    have hzero : [0] = Nat.digits 10 n :=
      map_digitChar_inj (by decide)
        (fun d hd => Nat.digits_lt_base (by norm_num) hd) hrev
    have hofd := Nat.ofDigits_digits 10 n
    rw [← hzero] at hofd
    simp [Nat.ofDigits] at hofd
    omega
  · rw [if_neg hn, if_neg hm] at h
    have hd : ((Nat.digits 10 n).map Nat.digitChar).reverse =
        ((Nat.digits 10 m).map Nat.digitChar).reverse :=
      congrArg String.data h
    have hmap : (Nat.digits 10 n).map Nat.digitChar =
        (Nat.digits 10 m).map Nat.digitChar :=
      List.reverse_injective hd
    have hdig := map_digitChar_inj
      (fun d hd => Nat.digits_lt_base (by norm_num) hd)
      (fun d hd => Nat.digits_lt_base (by norm_num) hd) hmap
    exact Nat.digits_inj_iff.mp hdig

/-- The id generator `i ↦ "doc_" ++ str(i)` is injective (helper). -/
theorem docId_inj : Function.Injective (fun i => "doc_" ++ natToDec i) := by
  intro a b hab
  apply natToDec_inj
  have hd : ("doc_" ++ natToDec a).data = ("doc_" ++ natToDec b).data :=
    congrArg String.data hab
  rw [String.data_append, String.data_append] at hd
  exact String.ext (List.append_cancel_left hd)

/-- Ids auto-generated within one `add_documents` call are pairwise
distinct (helper). -/
theorem gen_ids_nodup (n : Nat) : (gen_ids n).Nodup :=
  (List.nodup_range n).map docId_inj

/-- The ids of zipped entries are a prefix of the given id list (helper). -/
theorem zip_entry_ids (ids : List String) (rest : List (List Int × String)) :
    ((ids.zip rest).map (fun t => StoreEntry.id ⟨t.1, t.2.1, t.2.2⟩)) =
      ids.take rest.length := by
  induction ids generalizing rest with
  | nil => simp
  | cons a t ih =>
    cases rest with
    | nil => simp
    | cons b r => simp [ih r]

/-- C9 counterexample: two successive `add_documents` calls that omit ids
both auto-generate the id `doc_0`, so the store ends holding two distinct
entries with the same id — store-wide uniqueness fails for sequences of
auto-id adds. -/
theorem auto_ids_collide_counterexample :
    ¬ (storeIds (add_documents
        (add_documents ⟨none⟩ ["a"] [[1]] none) ["b"] [[2]] none)).Nodup := by
  decide

/-- C9 amended: ids auto-generated within a single `add_documents` call are
pairwise distinct, so one auto-id batch loaded into an empty store has
unique entry ids; uniqueness across multiple auto-id add calls does not
hold, because each call restarts its generated ids at `doc_0`. -/
theorem auto_ids_unique_per_call (documents : List String)
    (embeddings : List (List Int)) :
    (gen_ids documents.length).Nodup ∧
    (storeIds (add_documents ⟨none⟩ documents embeddings none)).Nodup := by
  refine ⟨gen_ids_nodup _, ?_⟩
  have hmap : storeIds (add_documents ⟨none⟩ documents embeddings none) =
      (gen_ids documents.length).take (embeddings.zip documents).length := by
    show List.map StoreEntry.id
      ([] ++ ((gen_ids documents.length).zip
        (embeddings.zip documents)).map (fun t => ⟨t.1, t.2.1, t.2.2⟩)) = _
    rw [List.nil_append, List.map_map]
    exact zip_entry_ids _ _
  rw [hmap]
  exact (gen_ids_nodup _).sublist (List.take_sublist _ _)

/-- The seeding loop, generalised over the start index: it attempts every
embedding call of every chunk, counts exactly the fully successful ones, and
inserts exactly their rows (helper). -/
theorem seedLoop_spec (embedOk insertOk : Nat → Bool) :
    ∀ (cs : List SeedChunk) (i : Nat),
      (∀ j, j < cs.length →
        SeedEvent.embedCall (i + j) ∈ (seedLoop embedOk insertOk i cs).1) ∧
      (seedLoop embedOk insertOk i cs).2.1 =
        ((List.enumFrom i cs).filter
          (fun p => embedOk p.1 && insertOk p.1)).length ∧
      (seedLoop embedOk insertOk i cs).2.2 =
        ((List.enumFrom i cs).filter
          (fun p => embedOk p.1 && insertOk p.1)).map
          (fun p => ⟨p.2.content, "faq.pdf", p.2.page, p.1⟩) := by
  intro cs
  induction cs with
  | nil =>
    intro i
    refine ⟨?_, rfl, rfl⟩
    intro j hj
    simp at hj
  | cons c cs ih =>
    intro i
    obtain ⟨ih1, ih2, ih3⟩ := ih (i + 1)
    refine ⟨?_, ?_, ?_⟩
    · intro j hj
      cases j with
      | zero =>
        show SeedEvent.embedCall (i + 0) ∈ _
        rw [Nat.add_zero]
        simp only [seedLoop, processChunk]
        by_cases he : embedOk i <;> by_cases hi2 : insertOk i <;>
          simp [he, hi2]
      | succ j =>
        have hj2 : j < cs.length := by simpa using hj
        have hmem := ih1 j hj2
        have heq : i + (j + 1) = i + 1 + j := by omega
        rw [heq]
        simp only [seedLoop]
        exact List.mem_append_right _ hmem
    · simp only [seedLoop, List.enumFrom, List.filter_cons]
      by_cases he : embedOk i <;> by_cases hi2 : insertOk i <;>
        simp [processChunk, he, hi2, ih2] <;> omega
    · simp only [seedLoop, List.enumFrom, List.filter_cons]
      by_cases he : embedOk i <;> by_cases hi2 : insertOk i <;>
        simp [processChunk, he, hi2, ih3]

/-- Every sleep in a seeding trace is the fixed 500 ms delay (helper). -/
theorem seedLoop_sleep_fixed (embedOk insertOk : Nat → Bool) :
    ∀ (cs : List SeedChunk) (i : Nat) (ms : Nat),
      SeedEvent.sleepMs ms ∈ (seedLoop embedOk insertOk i cs).1 → ms = 500 := by
  intro cs
  induction cs with
  | nil =>
    intro i ms hmem
    simp [seedLoop] at hmem
  | cons c cs ih =>
    intro i ms hmem
    simp only [seedLoop, List.mem_append] at hmem
    rcases hmem with hmem | hmem
    · unfold processChunk at hmem
      by_cases he : embedOk i <;> by_cases hi2 : insertOk i <;>
        simp [he, hi2] at hmem <;> omega
    · exact ih (i + 1) ms hmem

/-- C7: in the seeding workflow the failure of any chunk (in its embedding
call or its insert call) is caught and skipped without aborting the loop —
the embedding call of every chunk is still attempted — and the final report is
(number of fully successful chunks) / (total chunks), with exactly the
rows of the successful chunks inserted into the external store. -/
theorem seeding_partial_failure (embedOk insertOk : Nat → Bool)
    (chunks : List SeedChunk) :
    (∀ j, j < chunks.length →
      SeedEvent.embedCall j ∈ (seedLoop embedOk insertOk 0 chunks).1) ∧
    seedReport embedOk insertOk chunks =
      ((chunks.enum.filter (fun p => embedOk p.1 && insertOk p.1)).length,
       chunks.length) ∧
    (seedLoop embedOk insertOk 0 chunks).2.2 =
      (chunks.enum.filter (fun p => embedOk p.1 && insertOk p.1)).map
        (fun p => ⟨p.2.content, "faq.pdf", p.2.page, p.1⟩) := by
  obtain ⟨h1, h2, h3⟩ := seedLoop_spec embedOk insertOk chunks 0
  refine ⟨fun j hj => by simpa using h1 j hj, ?_, by simpa [List.enum] using h3⟩
  unfold seedReport
  rw [h2]
  rfl

/-- Witness for C7: the 10-chunk scenario where only chunk #5 (index 4)
fails its embedding call — the report is 9/10, nine rows are inserted, and
the embedding call of chunk #5 was still attempted without aborting the loop. -/
theorem seeding_partial_failure_witness :
    seedReport (fun i => decide (i ≠ 4)) (fun _ => true) demoChunks =
      (9, 10) ∧
    (seedLoop (fun i => decide (i ≠ 4)) (fun _ => true) 0
      demoChunks).2.2.length = 9 ∧
    SeedEvent.embedCall 4 ∈
      (seedLoop (fun i => decide (i ≠ 4)) (fun _ => true) 0 demoChunks).1 := by
  obtain ⟨h1, h2, h3⟩ := seeding_partial_failure
    (fun i => decide (i ≠ 4)) (fun _ => true) demoChunks
  refine ⟨?_, ?_, h1 4 (by decide)⟩
  · rw [h2]
    decide
  · rw [h3]
    decide

/-- C8 counterexample: the `time.sleep(0.5)` sits inside the `try` block
after the insert, so a failed chunk skips it — with two chunks where the
embedding call of the first one fails, no delay separates the two consecutive
embedding API calls. -/
theorem seeding_delay_counterexample :
    delayCheck (seedLoop (fun i => decide (i ≠ 0)) (fun _ => true) 0
      [⟨"a", 0⟩, ⟨"b", 0⟩]).1 true = false := by
  decide

/-- The delay check holds for a loop whose every non-final chunk fully
succeeds, from any start index (helper). -/
theorem delayCheck_seedLoop (embedOk insertOk : Nat → Bool) :
    ∀ (cs : List SeedChunk) (i : Nat),
      (∀ j, j + 1 < cs.length →
        embedOk (i + j) = true ∧ insertOk (i + j) = true) →
      delayCheck (seedLoop embedOk insertOk i cs).1 true = true := by
  intro cs
  induction cs with
  | nil => intro i _; rfl
  | cons c cs ih =>
    intro i h
    cases cs with
    | nil =>
      by_cases he : embedOk i <;> by_cases hi2 : insertOk i <;>
        simp [seedLoop, processChunk, delayCheck, he, hi2]
    | cons c2 cs2 =>
      have h0 := h 0 (by simp)
      rw [Nat.add_zero] at h0
      have hshift : ∀ j, j + 1 < (c2 :: cs2).length →
          embedOk (i + 1 + j) = true ∧ insertOk (i + 1 + j) = true := by
        intro j hj
        have hj2 : (j + 1) + 1 < (c :: c2 :: cs2).length := by
          simp at hj ⊢
          omega
        have hh := h (j + 1) hj2
        have heq : i + (j + 1) = i + 1 + j := by omega
        rwa [heq] at hh
      have ihh := ih (i + 1) hshift
      simp only [seedLoop, processChunk, h0.1, h0.2]
      simpa [delayCheck] using ihh

/-- C8 amended: a fixed 500 ms delay separates two consecutive embedding
API calls whenever the earlier chunk fully succeeded — in particular in
every run whose non-final chunks all succeed — but a chunk that fails skips
the sleep, so the embedding call of its successor follows with no delay. -/
theorem seeding_delay_amended (embedOk insertOk : Nat → Bool)
    (chunks : List SeedChunk)
    (h : ∀ j, j + 1 < chunks.length →
      embedOk j = true ∧ insertOk j = true) :
    delayCheck (seedLoop embedOk insertOk 0 chunks).1 true = true ∧
    (∀ ms, SeedEvent.sleepMs ms ∈ (seedLoop embedOk insertOk 0 chunks).1 →
      ms = 500) := by
  constructor
  · apply delayCheck_seedLoop
    intro j hj
    simpa using h j hj
  · exact fun ms => seedLoop_sleep_fixed embedOk insertOk chunks 0 ms

/-- Witness for the amended statement of C8: two fully successful chunks —
the delay check passes and every sleep of the trace is 500 ms. -/
theorem seeding_delay_amended_witness :
    delayCheck (seedLoop (fun _ => true) (fun _ => true) 0
      [⟨"a", 0⟩, ⟨"b", 0⟩]).1 true = true ∧
    (∀ ms, SeedEvent.sleepMs ms ∈ (seedLoop (fun _ => true) (fun _ => true) 0
      [⟨"a", 0⟩, ⟨"b", 0⟩]).1 → ms = 500) :=
  seeding_delay_amended (fun _ => true) (fun _ => true) [⟨"a", 0⟩, ⟨"b", 0⟩]
    (fun _ _ => ⟨rfl, rfl⟩)
